import Mathlib

/-!
Shallow embedding of `shoemaker.py`: the pairs-file header (`PairsHeader`)
and record (`PairsLine`) data model, with their construction, validation,
canonicalization (mate swap) and serialization logic.

Python dictionaries are embedded as association lists in insertion order
(`dictUpdate` models `dict.update` with one key: an existing key keeps its
position and gets the new value, a fresh key is appended).  Python `assert`
failures are embedded as explicit error results; `AssertionError`s raised by
header construction are `configurationError`, those raised by record
validation are `validationError`, and an attribute access on a field that was
never assigned (possible when `add_optional` is called before any `add`) is
`attributeError`.  Record fields that a freshly constructed `PairsLine` does
not yet have are `Option`-valued, `none` meaning "attribute not set".
A method that can raise after mutating `self` returns the mutated state
together with `Option PairsError`, so that partial mutation before a raise is
observable.  Python `int` arguments are embedded as `PosArg`, whose `nonInt`
constructor stands for any value failing `isinstance(pos, int)`.
-/

inductive PairsError where
  | configurationError
  | validationError
  | attributeError
  deriving DecidableEq, Repr

/-- `dict.update({k: v})` on an insertion-ordered association list: if the key
is present, every binding of that key is given the new value in place
(a Python dict holds a key at most once, so on states reachable from `{}`
this rewrites exactly one binding and keeps its position); otherwise the
binding is appended. -/
def dictUpdate (d : List (String × String)) (k v : String) : List (String × String) :=
  if d.any (fun p => p.1 = k) then
    d.map (fun p => if p.1 = k then (k, v) else p)
  else
    d ++ [(k, v)]

/-- First-match association-list lookup, the embedding of `d[k]` /
`k in d` on the dictionaries above. -/
def alookup : List (String × String) → String → Option String
  | [], _ => none
  | (k, v) :: rest, key => if k = key then some v else alookup rest key

/-- Lexicographic comparison of code-point lists, the order Python uses on
`str` (`a < b`). -/
def strLtList : List Char → List Char → Bool
  | _, [] => false
  | [], _ :: _ => true
  | a :: as, b :: bs => if a < b then true else if b < a then false else strLtList as bs

/-- Python `a < b` on strings: plain lexicographic by code point. -/
def pyStrLt (a b : String) : Bool := strLtList a.data b.data

/-- Python `a <= b` on strings. -/
def pyStrLe (a b : String) : Bool := !pyStrLt b a

/-- Insertion of a string into a sorted list by plain (alpha-numeric,
code-point lexicographic) string order. -/
def insertSorted (a : String) : List String → List String
  | [] => [a]
  | b :: l => if pyStrLe a b then a :: b :: l else b :: insertSorted a l

/-- `list.sort()` on strings: ascending alpha-numeric (plain lexicographic)
order, embedded as insertion sort. -/
def pySort : List String → List String
  | [] => []
  | a :: l => insertSorted a (pySort l)

namespace PairsHeaderDefs

/-- `PairsHeader.reserved_header_keys`: keys that cannot be used in
additional header lines. -/
def reserved_header_keys : List String :=
  ["shape", "sorted", "chromosomes", "genome_assembly", "columns"]

/-- The 7 reserved columns that start `self.columns`. -/
def base_columns : List String :=
  ["readID", "chr1", "position1", "chr2", "position2", "strand1", "strand2"]

/-- The loop `for c in additional_columns: assert c not in self.columns;
self.columns.append(c)` — note the membership test runs against the list as
it grows, so a duplicate among the additional columns also fails. -/
def addColumns : List String → List String → Except PairsError (List String)
  | cols, [] => .ok cols
  | cols, c :: rest =>
    if c ∈ cols then .error .configurationError
    else addColumns (cols ++ [c]) rest

/-- The loop `for k, v in additional_lines.items(): assert k not in
reserved_header_keys; self.additional_lines.update({k: v})`. -/
def buildLines : List (String × String) → List (String × String) →
    Except PairsError (List (String × String))
  | acc, [] => .ok acc
  | acc, (k, v) :: rest =>
    if k ∈ reserved_header_keys then .error .configurationError
    else buildLines (dictUpdate acc k v) rest

end PairsHeaderDefs

structure PairsHeader where
  shape : String
  sorted : String
  chromosomes : List String
  genome_assembly : Option String
  columns : List String
  additional_lines : List (String × String)
  deriving DecidableEq, Repr

namespace PairsHeader

export PairsHeaderDefs (reserved_header_keys base_columns addColumns buildLines)

/-- `PairsHeader.__init__`.  `assert chromosomes is not None` is embedded by
the argument type (a `List String` is never `None`); the line
`assert sorted == 'chr1-chr2-pos1-pos2' or 'chr1-chr2-pos1-pos2'` is a
tautology in Python (the right operand of `or` is a non-empty string, hence
truthy), so no check on `sorted` is performed. -/
def init (chromosomes : List String) (shape : String := "U")
    (sorted : String := "chr1-chr2-pos1-pos2")
    (genome_assembly : Option String := none)
    (additional_columns : List String := [])
    (additional_lines : List (String × String) := []) :
    Except PairsError PairsHeader :=
  if shape = "U" ∨ shape = "L" then
    match PairsHeaderDefs.addColumns PairsHeaderDefs.base_columns additional_columns with
    | .error e => .error e
    | .ok cols =>
      match PairsHeaderDefs.buildLines [] additional_lines with
      | .error e => .error e
      | .ok lines =>
        .ok ⟨shape, sorted, pySort chromosomes, genome_assembly, cols, lines⟩
  else .error .configurationError

/-- `format_additional_lines`: each entry rendered as `#key : value\n`. -/
def format_additional_lines (h : PairsHeader) : String :=
  String.join (h.additional_lines.map (fun kv => "#" ++ kv.1 ++ " : " ++ kv.2 ++ "\n"))

/-- `print_header(fout)`: the concatenation of everything written to `fout`,
in order.  The guard `if(additional_lines_formatted is not '')` is embedded
as inequality with the empty string (CPython interns `''`, so identity with
`''` coincides with equality for it). -/
def print_header (h : PairsHeader) : String :=
  let shapeText := if h.shape = "U" then "upper triangle" else "lower triangle"
  "#shape : " ++ shapeText ++ "\n" ++
  "#sorted : " ++ h.sorted ++ "\n" ++
  "#chromosomes : " ++ String.intercalate " " h.chromosomes ++ "\n" ++
  (match h.genome_assembly with
   | some ga => "#genome_assembly : " ++ ga ++ "\n"
   | none => "") ++
  "#columns : " ++ String.intercalate " " h.columns ++ "\n" ++
  (if h.format_additional_lines ≠ "" then h.format_additional_lines else "")

end PairsHeader

/-- A Python value passed as a position argument: either an `int` or some
value that fails `isinstance(pos, int)`. -/
inductive PosArg where
  | int (i : Int)
  | nonInt
  deriving DecidableEq, Repr

/-- `isinstance(pos, int) and pos > 0`. -/
def PosArg.isPosInt : PosArg → Bool
  | .int i => decide (0 < i)
  | .nonInt => false

/-- `PairsLine`: the record.  Every field other than the header back-reference
starts unset (`none`), exactly as a fresh Python instance has none of these
attributes until `add` assigns them. -/
structure PairsLine where
  header : PairsHeader
  readID : Option String := none
  chr1 : Option String := none
  pos1 : Option Int := none
  chr2 : Option String := none
  pos2 : Option Int := none
  strand1 : Option String := none
  strand2 : Option String := none
  optional : Option (List (String × String)) := none
  deriving DecidableEq, Repr

namespace PairsLine

/-- `PairsLine.__init__(header)`. -/
def mkNew (h : PairsHeader) : PairsLine := { header := h }

/-- The loop body of `add_optional`: `for k, v in keyvaluepairs.items():
assert k in self.header.columns; self.optional.update({k: v})`.  On the first
unknown key the loop raises, keeping the updates already applied. -/
def addOptionalLoop (cols : List String) :
    List (String × String) → List (String × String) →
    List (String × String) × Option PairsError
  | opt, [] => (opt, none)
  | opt, (k, v) :: rest =>
    if k ∈ cols then addOptionalLoop cols (dictUpdate opt k v) rest
    else (opt, some .validationError)

/-- `add_optional(keyvaluepairs)`.  Accessing `self.optional` before any
`add` set it raises `AttributeError`. -/
def add_optional (r : PairsLine) (keyvaluepairs : List (String × String)) :
    PairsLine × Option PairsError :=
  match r.optional with
  | none => (r, some .attributeError)
  | some opt =>
    let step := addOptionalLoop r.header.columns opt keyvaluepairs
    ({ r with optional := some step.1 }, step.2)

/-- The tail of `add` ("main columns, swap two mates to ensure either Upper
Triangle or Lower Triangle"), on a record whose `readID`/`optional` were
already assigned.  The two guards keep Python's operator precedence:
`A and B or C` parses as `(A and B) or C`, so the position clauses
`chr1 == chr2 and pos1 > pos2` / `chr1 == chr2 and pos1 < pos2` fire
whatever the shape is. -/
def storeMates (r1 : PairsLine) (chr1 : String) (p1 : Int) (chr2 : String)
    (p2 : Int) (strand1 strand2 : String) : PairsLine :=
  if (r1.header.shape == "U" && pyStrLt chr2 chr1) ||
      (chr1 == chr2 && decide (p2 < p1)) then
    { r1 with chr1 := some chr2, chr2 := some chr1,
              pos1 := some p2, pos2 := some p1,
              strand1 := some strand2, strand2 := some strand1 }
  else if (r1.header.shape == "L" && pyStrLt chr1 chr2) ||
      (chr1 == chr2 && decide (p1 < p2)) then
    { r1 with chr1 := some chr2, chr2 := some chr1,
              pos1 := some p2, pos2 := some p1,
              strand1 := some strand2, strand2 := some strand1 }
  else
    { r1 with chr1 := some chr1, chr2 := some chr2,
              pos1 := some p1, pos2 := some p2,
              strand1 := some strand1, strand2 := some strand2 }

/-- `add(chr1, pos1, chr2, pos2, strand1='.', strand2='.', readID='.',
optional=dict())`.  Validation failures leave the record untouched; a
failure inside `add_optional` happens after `readID` was assigned and
`optional` was reset. -/
def add (r : PairsLine) (chr1 : String) (pos1 : PosArg) (chr2 : String)
    (pos2 : PosArg) (strand1 : String := ".") (strand2 : String := ".")
    (readID : String := ".") (optional : List (String × String) := []) :
    PairsLine × Option PairsError :=
  if chr1 ∉ r.header.chromosomes then (r, some .validationError)
  else if chr2 ∉ r.header.chromosomes then (r, some .validationError)
  else
    match pos1, pos2 with
    | .int p1, .int p2 =>
      if ¬ 0 < p1 then (r, some .validationError)
      else if ¬ 0 < p2 then (r, some .validationError)
      else
        let r0 : PairsLine := { r with readID := some readID, optional := some [] }
        let step := if optional.length > 0 then r0.add_optional optional else (r0, none)
        match step with
        | (r1, some e) => (r1, some e)
        | (r1, none) => (storeMates r1 chr1 p1 chr2 p2 strand1 strand2, none)
    | _, _ => (r, some .validationError)

/-- `printline(fout)`: the text written to `fout`, or `none` when a field
accessed by the method was never assigned (Python `AttributeError`).
`self.optional` is only read when the header has more than 7 columns, and its
values are written in key insertion order. -/
def printline (r : PairsLine) : Option String := do
  let rid ← r.readID
  let c1 ← r.chr1
  let p1 ← r.pos1
  let c2 ← r.chr2
  let p2 ← r.pos2
  let s1 ← r.strand1
  let s2 ← r.strand2
  let base := rid ++ "\t" ++ c1 ++ "\t" ++ toString p1 ++ "\t" ++ c2 ++ "\t" ++
    toString p2 ++ "\t" ++ s1 ++ "\t" ++ s2
  let extra ←
    if r.header.columns.length > 7 then
      (r.optional).map (fun opt => String.join (opt.map (fun kv => "\t" ++ kv.2)))
    else
      some ""
  return base ++ extra ++ "\n"

end PairsLine

/-! Concrete states used by the scenarios: headers as `PairsHeader.init`
produces them, records as `add`/`add_optional` produce them. -/

/-- The header of the end-to-end scenario:
`PairsHeader(['chr1','chr2'], genome_assembly='hg19',
additional_columns=['mismatch'])`. -/
def hdrC3 : PairsHeader :=
  ⟨"U", "chr1-chr2-pos1-pos2", ["chr1", "chr2"], some "hg19",
   PairsHeaderDefs.base_columns ++ ["mismatch"], []⟩

/-- A minimal single-chromosome header, `PairsHeader(['chr1'])`. -/
def hdr1 : PairsHeader :=
  ⟨"U", "chr1-chr2-pos1-pos2", ["chr1"], none, PairsHeaderDefs.base_columns, []⟩

/-- The record of the end-to-end scenario after
`add('chr1', 1000, 'chr2', 3000)`. -/
def lineC3 : PairsLine :=
  ((PairsLine.mkNew hdrC3).add "chr1" (.int 1000) "chr2" (.int 3000)).1

/-- The scenario record after the subsequent
`add_optional({'mismatch': 'chr1:1070:A>T'})`. -/
def lineC3b : PairsLine :=
  (lineC3.add_optional [("mismatch", "chr1:1070:A>T")]).1

/-- A fully populated record: `add('chr1', 5, 'chr2', 7, '+', '-', 'r0',
{'mismatch': 'm0'})` on a fresh record bound to the scenario header. -/
def lineC10 : PairsLine :=
  ((PairsLine.mkNew hdrC3).add "chr1" (.int 5) "chr2" (.int 7) "+" "-" "r0"
    [("mismatch", "m0")]).1

/-! General lemmas about the embedded operations. -/

open PairsHeaderDefs PairsLine

theorem strLtList_irrefl : ∀ l : List Char, strLtList l l = false
  | [] => rfl
  | a :: as => by simp [strLtList, lt_irrefl, strLtList_irrefl as]

theorem pyStrLt_irrefl (s : String) : pyStrLt s s = false :=
  strLtList_irrefl s.data

/-- A tie (same chromosome, same position) falls through both swap guards. -/
theorem storeMates_tie (r1 : PairsLine) (chr : String) (p : Int) (s1 s2 : String) :
    storeMates r1 chr p chr p s1 s2 =
      { r1 with chr1 := some chr, chr2 := some chr, pos1 := some p, pos2 := some p,
                strand1 := some s1, strand2 := some s2 } := by
  simp [storeMates, pyStrLt_irrefl, lt_irrefl]

theorem addOptionalLoop_err_iff (cols : List String) :
    ∀ (l opt : List (String × String)),
      ((addOptionalLoop cols opt l).2 = some PairsError.validationError ↔
        ∃ kv ∈ l, kv.1 ∉ cols)
  | [], opt => by simp [addOptionalLoop]
  | (k, v) :: rest, opt => by
    by_cases hk : k ∈ cols
    · rw [show addOptionalLoop cols opt ((k, v) :: rest) =
        addOptionalLoop cols (dictUpdate opt k v) rest by simp [addOptionalLoop, hk]]
      rw [addOptionalLoop_err_iff cols rest (dictUpdate opt k v)]
      constructor
      · rintro ⟨kv, hm, hn⟩; exact ⟨kv, List.mem_cons_of_mem _ hm, hn⟩
      · rintro ⟨kv, hm, hn⟩
        rcases List.mem_cons.mp hm with hkv | hkv
        · subst hkv; exact absurd hk hn
        · exact ⟨kv, hkv, hn⟩
    · rw [show addOptionalLoop cols opt ((k, v) :: rest) =
        (opt, some PairsError.validationError) by simp [addOptionalLoop, hk]]
      simp only [true_iff]
      exact ⟨(k, v), List.mem_cons_self _ _, hk⟩

theorem addOptionalLoop_none (cols : List String) :
    ∀ (l opt : List (String × String)), (∀ kv ∈ l, kv.1 ∈ cols) →
      (addOptionalLoop cols opt l).2 = none
  | [], opt, _ => rfl
  | (k, v) :: rest, opt, h => by
    have hk : k ∈ cols := h (k, v) (List.mem_cons_self _ _)
    rw [show addOptionalLoop cols opt ((k, v) :: rest) =
        addOptionalLoop cols (dictUpdate opt k v) rest by simp [addOptionalLoop, hk]]
    exact addOptionalLoop_none cols rest _ (fun kv hm => h kv (List.mem_cons_of_mem _ hm))

theorem alookup_map_replace (k v : String) :
    ∀ d : List (String × String), d.any (fun p => p.1 = k) = true →
      alookup (d.map fun p => if p.1 = k then (k, v) else p) k = some v
  | [], h => by simp at h
  | (k0, v0) :: rest, h => by
    by_cases hk : k0 = k
    · subst hk
      rw [List.map_cons, if_pos (rfl : (k0, v0).1 = k0)]
      simp [alookup]
    · simp only [List.any_cons, Bool.or_eq_true, decide_eq_true_eq, hk, false_or] at h
      rw [List.map_cons]
      simp only [hk, if_false]
      simp [alookup, hk, alookup_map_replace k v rest h]

theorem alookup_append_last (k v : String) :
    ∀ d : List (String × String), d.any (fun p => p.1 = k) = false →
      alookup (d ++ [(k, v)]) k = some v
  | [], _ => by simp [alookup]
  | (k0, v0) :: rest, h => by
    simp only [List.any_cons, Bool.or_eq_false_iff, decide_eq_false_iff_not] at h
    simp [alookup, h.1, alookup_append_last k v rest h.2]

theorem alookup_dictUpdate (d : List (String × String)) (k v : String) :
    alookup (dictUpdate d k v) k = some v := by
  unfold dictUpdate
  by_cases h : d.any (fun p => p.1 = k)
  · rw [if_pos h]; exact alookup_map_replace k v d h
  · rw [if_neg h]; exact alookup_append_last k v d (Bool.eq_false_iff.mpr h)

theorem addColumns_ok_iff :
    ∀ (l cols : List String),
      ((∃ cols2, addColumns cols l = .ok cols2) ↔ (∀ c ∈ l, c ∉ cols) ∧ l.Nodup)
  | [], cols => by simp [addColumns]
  | c :: rest, cols => by
    by_cases hc : c ∈ cols
    · simp [addColumns, hc]
    · rw [show addColumns cols (c :: rest) = addColumns (cols ++ [c]) rest by
        simp [addColumns, hc]]
      rw [addColumns_ok_iff rest (cols ++ [c])]
      constructor
      · rintro ⟨h1, h2⟩
        refine ⟨fun d hd => ?_, List.nodup_cons.mpr ⟨fun hcr => ?_, h2⟩⟩
        · rcases List.mem_cons.mp hd with rfl | hd
          · exact hc
          · exact fun hdc => (h1 d hd) (List.mem_append.mpr (.inl hdc))
        · exact (h1 c hcr) (List.mem_append.mpr (.inr (List.mem_singleton.mpr rfl)))
      · rintro ⟨h1, h2⟩
        refine ⟨fun d hd hmem => ?_, (List.nodup_cons.mp h2).2⟩
        rcases List.mem_append.mp hmem with hdc | hdc
        · exact h1 d (List.mem_cons_of_mem _ hd) hdc
        · exact (List.nodup_cons.mp h2).1 (List.mem_singleton.mp hdc ▸ hd)

theorem addColumns_ok_or_error :
    ∀ (l cols : List String), (∃ cols2, addColumns cols l = .ok cols2) ∨
      addColumns cols l = .error .configurationError
  | [], cols => .inl ⟨cols, rfl⟩
  | c :: rest, cols => by
    by_cases hc : c ∈ cols
    · exact .inr (by simp [addColumns, hc])
    · rw [show addColumns cols (c :: rest) = addColumns (cols ++ [c]) rest by
        simp [addColumns, hc]]
      exact addColumns_ok_or_error rest (cols ++ [c])

theorem addColumns_ok_prefix :
    ∀ (l cols cols2 : List String), addColumns cols l = .ok cols2 →
      ∃ tail, cols2 = cols ++ tail
  | [], cols, cols2, h => ⟨[], by simpa [addColumns] using h.symm⟩
  | c :: rest, cols, cols2, h => by
    by_cases hc : c ∈ cols
    · simp [addColumns, hc] at h
    · rw [show addColumns cols (c :: rest) = addColumns (cols ++ [c]) rest by
        simp [addColumns, hc]] at h
      obtain ⟨t, ht⟩ := addColumns_ok_prefix rest (cols ++ [c]) cols2 h
      exact ⟨c :: t, by simp [ht]⟩

theorem buildLines_ok_iff :
    ∀ (l acc : List (String × String)),
      ((∃ lines, buildLines acc l = .ok lines) ↔
        ∀ kv ∈ l, kv.1 ∉ reserved_header_keys)
  | [], acc => by simp [buildLines]
  | (k, v) :: rest, acc => by
    by_cases hk : k ∈ reserved_header_keys
    · simp [buildLines, hk]
    · rw [show buildLines acc ((k, v) :: rest) = buildLines (dictUpdate acc k v) rest by
        simp [buildLines, hk]]
      rw [buildLines_ok_iff rest (dictUpdate acc k v)]
      simp [hk]

theorem buildLines_ok_or_error :
    ∀ (l acc : List (String × String)), (∃ lines, buildLines acc l = .ok lines) ∨
      buildLines acc l = .error .configurationError
  | [], acc => .inl ⟨acc, rfl⟩
  | (k, v) :: rest, acc => by
    by_cases hk : k ∈ reserved_header_keys
    · exact .inr (by simp [buildLines, hk])
    · rw [show buildLines acc ((k, v) :: rest) = buildLines (dictUpdate acc k v) rest by
        simp [buildLines, hk]]
      exact buildLines_ok_or_error rest (dictUpdate acc k v)

/-- `PairsHeader.init` succeeds exactly when the shape is `'U'`/`'L'`, no
additional column collides with a reserved column or with an earlier
additional column, and no additional-line key is reserved. -/
theorem init_ok_iff (chroms : List String) (shape srt : String)
    (ga : Option String) (ac : List String) (al : List (String × String)) :
    (∃ h, PairsHeader.init chroms shape srt ga ac al = .ok h) ↔
      (shape = "U" ∨ shape = "L") ∧ (∀ c ∈ ac, c ∉ base_columns) ∧ ac.Nodup ∧
        (∀ kv ∈ al, kv.1 ∉ reserved_header_keys) := by
  unfold PairsHeader.init
  by_cases hs : shape = "U" ∨ shape = "L"
  · rw [if_pos hs]
    rcases hac : addColumns base_columns ac with e | cols
    · have hbad : ¬ ((∀ c ∈ ac, c ∉ base_columns) ∧ ac.Nodup) := by
        intro hok
        obtain ⟨cols2, hc2⟩ := (addColumns_ok_iff ac base_columns).mpr hok
        rw [hac] at hc2
        exact Except.noConfusion hc2
      constructor
      · rintro ⟨h, hh⟩
        exact Except.noConfusion hh
      · rintro ⟨_, h2, h3, _⟩
        exact absurd ⟨h2, h3⟩ hbad
    · have hcols : (∀ c ∈ ac, c ∉ base_columns) ∧ ac.Nodup :=
        (addColumns_ok_iff ac base_columns).mp ⟨cols, hac⟩
      rcases hal : buildLines [] al with e | lines
      · have hbad : ¬ ∀ kv ∈ al, kv.1 ∉ reserved_header_keys := by
          intro hok
          obtain ⟨lines2, hl2⟩ := (buildLines_ok_iff al []).mpr hok
          rw [hal] at hl2
          exact Except.noConfusion hl2
        constructor
        · rintro ⟨h, hh⟩
          exact Except.noConfusion hh
        · rintro ⟨_, _, _, h4⟩
          exact absurd h4 hbad
      · have hlines : ∀ kv ∈ al, kv.1 ∉ reserved_header_keys :=
          (buildLines_ok_iff al []).mp ⟨lines, hal⟩
        constructor
        · intro _
          exact ⟨hs, hcols.1, hcols.2, hlines⟩
        · intro _
          exact ⟨_, rfl⟩
  · rw [if_neg hs]
    constructor
    · rintro ⟨h, hh⟩
      exact Except.noConfusion hh
    · rintro ⟨h1, _⟩
      exact absurd h1 hs

/-- The only error `PairsHeader.init` produces is `configurationError`. -/
theorem init_error_config (chroms : List String) (shape srt : String)
    (ga : Option String) (ac : List String) (al : List (String × String))
    (e : PairsError) (h : PairsHeader.init chroms shape srt ga ac al = .error e) :
    e = .configurationError := by
  unfold PairsHeader.init at h
  by_cases hs : shape = "U" ∨ shape = "L"
  · rw [if_pos hs] at h
    rcases hac : addColumns base_columns ac with e2 | cols
    · rcases addColumns_ok_or_error ac base_columns with ⟨cols2, hc2⟩ | hc2
      · rw [hac] at hc2; exact Except.noConfusion hc2
      · rw [hac] at hc2
        cases hc2
        rw [hac] at h
        cases h
        rfl
    · rw [hac] at h
      rcases hal : buildLines ([] : List (String × String)) al with e2 | lines
      · rcases buildLines_ok_or_error al [] with ⟨lines2, hl2⟩ | hl2
        · rw [hal] at hl2; exact Except.noConfusion hl2
        · rw [hal] at hl2
          cases hl2
          rw [hal] at h
          cases h
          rfl
      · rw [hal] at h
        exact Except.noConfusion h
  · rw [if_neg hs] at h
    cases h
    rfl

/-- A header built by `init` has the 7 reserved columns as a prefix of its
column list. -/
theorem init_columns_prefix (chroms : List String) (shape srt : String)
    (ga : Option String) (ac : List String) (al : List (String × String))
    (h : PairsHeader) (hh : PairsHeader.init chroms shape srt ga ac al = .ok h) :
    ∃ tail, h.columns = base_columns ++ tail := by
  unfold PairsHeader.init at hh
  by_cases hs : shape = "U" ∨ shape = "L"
  · rw [if_pos hs] at hh
    rcases hac : addColumns base_columns ac with e2 | cols
    · rw [hac] at hh; exact Except.noConfusion hh
    · rw [hac] at hh
      rcases hal : buildLines ([] : List (String × String)) al with e2 | lines
      · rw [hal] at hh; exact Except.noConfusion hh
      · rw [hal] at hh
        cases hh
        exact addColumns_ok_prefix ac base_columns cols hac
  · rw [if_neg hs] at hh
    exact Except.noConfusion hh

/-- Failing any of the four `add` validations returns the record unchanged. -/
theorem add_invalid (r : PairsLine) (c1 : String) (p1 : PosArg) (c2 : String)
    (p2 : PosArg) (s1 s2 rid : String) (optional : List (String × String))
    (h : c1 ∉ r.header.chromosomes ∨ c2 ∉ r.header.chromosomes ∨
      p1.isPosInt = false ∨ p2.isPosInt = false) :
    r.add c1 p1 c2 p2 s1 s2 rid optional = (r, some .validationError) := by
  rcases p1 with p1 | _ <;> rcases p2 with p2 | _ <;>
    simp only [PairsLine.add] <;>
    by_cases h1 : c1 ∈ r.header.chromosomes <;>
    by_cases h2 : c2 ∈ r.header.chromosomes <;>
    simp only [h1, h2, not_true_eq_false, not_false_eq_true, if_true, if_false,
      ite_true, ite_false]
  -- remaining: both chromosomes valid and both positions are ints
  by_cases hp1 : 0 < p1
  · rw [if_neg (by simpa using hp1)]
    by_cases hp2 : 0 < p2
    · exfalso
      rcases h with h | h | h | h
      · exact h h1
      · exact h h2
      · simp [PosArg.isPosInt, hp1] at h
      · simp [PosArg.isPosInt, hp2] at h
    · rw [if_pos (by simpa using hp2)]
  · rw [if_pos (by simpa using hp1)]

/-- A fully valid `add` assigns `readID`, rebuilds `optional` from the
supplied mapping, and stores the mates through the swap logic. -/
theorem add_valid (r : PairsLine) (c1 : String) (p1 : Int) (c2 : String)
    (p2 : Int) (s1 s2 rid : String) (optional : List (String × String))
    (h1 : c1 ∈ r.header.chromosomes) (h2 : c2 ∈ r.header.chromosomes)
    (hp1 : 0 < p1) (hp2 : 0 < p2)
    (hopt : ∀ kv ∈ optional, kv.1 ∈ r.header.columns) :
    r.add c1 (.int p1) c2 (.int p2) s1 s2 rid optional =
      (storeMates
        { r with readID := some rid,
                 optional := some (addOptionalLoop r.header.columns [] optional).1 }
        c1 p1 c2 p2 s1 s2, none) := by
  have hnone : (addOptionalLoop r.header.columns [] optional).2 = none :=
    addOptionalLoop_none r.header.columns optional [] hopt
  simp only [PairsLine.add, PairsLine.add_optional, h1, h2, not_true_eq_false,
    not_false_eq_true, if_true, if_false, ite_true, ite_false,
    not_lt, if_neg (by simpa using hp1 : ¬ p1 ≤ 0), if_neg (by simpa using hp2 : ¬ p2 ≤ 0)]
  by_cases hlen : optional.length > 0
  · rw [if_pos hlen]
    rw [show (addOptionalLoop r.header.columns [] optional) =
      ((addOptionalLoop r.header.columns [] optional).1, none) from
      Prod.ext rfl hnone]
  · rw [if_neg hlen]
    have hempty : optional = [] := List.length_eq_zero.mp (Nat.eq_zero_of_not_pos hlen)
    subst hempty
    rfl

/-! Claim theorems. -/

/-- C1: the claim says that for every valid `add` under `shape = UPPER` the
stored first locus is ordered ≤ the stored second locus (chromosome order,
then position).  The code violates this: on an upper-triangle header, adding
`('chr1', 1, 'chr1', 2)` — already in upper order — swaps the mates and
stores positions `2, 1`, because Python operator precedence makes the clause
`chr1 == chr2 and pos1 < pos2` of the lower-triangle branch fire regardless
of the shape.  This theorem evaluates the code at that failing input. -/
theorem c1_upper_order_violated :
    PairsHeader.init ["chr1"] "U" "chr1-chr2-pos1-pos2" none [] [] = .ok hdr1 ∧
    hdr1.shape = "U" ∧
    ((PairsLine.mkNew hdr1).add "chr1" (.int 1) "chr1" (.int 2)).2 = none ∧
    ((PairsLine.mkNew hdr1).add "chr1" (.int 1) "chr1" (.int 2)).1.chr1 = some "chr1" ∧
    ((PairsLine.mkNew hdr1).add "chr1" (.int 1) "chr1" (.int 2)).1.pos1 = some 2 ∧
    ((PairsLine.mkNew hdr1).add "chr1" (.int 1) "chr1" (.int 2)).1.chr2 = some "chr1" ∧
    ((PairsLine.mkNew hdr1).add "chr1" (.int 1) "chr1" (.int 2)).1.pos2 = some 1 ∧
    ¬ ((2 : Int) ≤ 1) :=
  ⟨rfl, rfl, rfl, rfl, rfl, rfl, rfl, by decide⟩

/-- C2: when `chr1 = chr2` and `pos1 = pos2`, `add` performs no swap under
either shape: the stored record keeps mate 1 as `(chr1, pos1, strand1)` and
mate 2 as `(chr2, pos2, strand2)` exactly as supplied (the header, and hence
its shape, is arbitrary here). -/
theorem c2_tie_no_swap (r : PairsLine) (chr : String) (p : Int)
    (s1 s2 rid : String) (optional : List (String × String))
    (hchr : chr ∈ r.header.chromosomes) (hp : 0 < p)
    (hopt : ∀ kv ∈ optional, kv.1 ∈ r.header.columns) :
    ((r.add chr (.int p) chr (.int p) s1 s2 rid optional).2 = none) ∧
    ((r.add chr (.int p) chr (.int p) s1 s2 rid optional).1.chr1 = some chr) ∧
    ((r.add chr (.int p) chr (.int p) s1 s2 rid optional).1.pos1 = some p) ∧
    ((r.add chr (.int p) chr (.int p) s1 s2 rid optional).1.strand1 = some s1) ∧
    ((r.add chr (.int p) chr (.int p) s1 s2 rid optional).1.chr2 = some chr) ∧
    ((r.add chr (.int p) chr (.int p) s1 s2 rid optional).1.pos2 = some p) ∧
    ((r.add chr (.int p) chr (.int p) s1 s2 rid optional).1.strand2 = some s2) := by
  rw [add_valid r chr p chr p s1 s2 rid optional hchr hchr hp hp hopt, storeMates_tie]
  exact ⟨rfl, rfl, rfl, rfl, rfl, rfl, rfl⟩

/-- Witness for C2 at a concrete tie input. -/
theorem c2_tie_no_swap_witness :
    (((PairsLine.mkNew hdr1).add "chr1" (.int 7) "chr1" (.int 7) "+" "-" "id0" []).2 = none) ∧
    (((PairsLine.mkNew hdr1).add "chr1" (.int 7) "chr1" (.int 7) "+" "-" "id0" []).1.chr1 = some "chr1") ∧
    (((PairsLine.mkNew hdr1).add "chr1" (.int 7) "chr1" (.int 7) "+" "-" "id0" []).1.pos1 = some 7) ∧
    (((PairsLine.mkNew hdr1).add "chr1" (.int 7) "chr1" (.int 7) "+" "-" "id0" []).1.strand1 = some "+") ∧
    (((PairsLine.mkNew hdr1).add "chr1" (.int 7) "chr1" (.int 7) "+" "-" "id0" []).1.chr2 = some "chr1") ∧
    (((PairsLine.mkNew hdr1).add "chr1" (.int 7) "chr1" (.int 7) "+" "-" "id0" []).1.pos2 = some 7) ∧
    (((PairsLine.mkNew hdr1).add "chr1" (.int 7) "chr1" (.int 7) "+" "-" "id0" []).1.strand2 = some "-") :=
  c2_tie_no_swap (PairsLine.mkNew hdr1) "chr1" 7 "+" "-" "id0" [] (by decide) (by decide)
    (by simp)

/-- C3 counterexample: the first `WriteLine` of the end-to-end scenario
emits `.\tchr1\t1000\tchr2\t3000\t.\t.\n` — with no trailing tab — so the
claim's expected text `.\tchr1\t1000\tchr2\t3000\t.\t.\t` is wrong (with or
without a final newline). -/
theorem c3_counterexample :
    lineC3.printline = some ".\tchr1\t1000\tchr2\t3000\t.\t.\n" ∧
    (".\tchr1\t1000\tchr2\t3000\t.\t.\n" : String) ≠ ".\tchr1\t1000\tchr2\t3000\t.\t.\t" ∧
    (".\tchr1\t1000\tchr2\t3000\t.\t.\n" : String) ≠ ".\tchr1\t1000\tchr2\t3000\t.\t.\t\n" :=
  ⟨rfl, by decide, by decide⟩

/-- C3 (amended): in the end-to-end scenario — header
`(['chr1','chr2'], genomeAssembly='hg19', additionalColumns=['mismatch'])`,
then `Add('chr1',1000,'chr2',3000)` — the first `WriteLine` emits
`.\tchr1\t1000\tchr2\t3000\t.\t.\n` (optional mapping empty, nothing
appended after strand2), and after
`AddOptional({'mismatch':'chr1:1070:A>T'})` `WriteLine` emits
`.\tchr1\t1000\tchr2\t3000\t.\t.\tchr1:1070:A>T\n`. -/
theorem c3_end_to_end_scenario :
    PairsHeader.init ["chr1", "chr2"] "U" "chr1-chr2-pos1-pos2" (some "hg19")
      ["mismatch"] [] = .ok hdrC3 ∧
    ((PairsLine.mkNew hdrC3).add "chr1" (.int 1000) "chr2" (.int 3000)).2 = none ∧
    lineC3.printline = some ".\tchr1\t1000\tchr2\t3000\t.\t.\n" ∧
    (lineC3.add_optional [("mismatch", "chr1:1070:A>T")]).2 = none ∧
    lineC3b.printline = some ".\tchr1\t1000\tchr2\t3000\t.\t.\tchr1:1070:A>T\n" :=
  ⟨rfl, rfl, rfl, rfl, rfl⟩

/-- C4: header construction accepts any `sortKey` string unconditionally
(the original `assert` is a tautology): for every string `s`, construction
with otherwise-valid arguments succeeds and stores `s` as the sort key. -/
theorem c4_sortKey_accepted_unconditionally (s : String) (chroms : List String) :
    ∃ h, PairsHeader.init chroms "U" s none [] [] = .ok h ∧ h.sorted = s :=
  ⟨⟨"U", s, pySort chroms, none, PairsHeaderDefs.base_columns, []⟩, rfl, rfl⟩

/-- C5: on a record bound to a constructed header (and whose `optional`
dictionary exists), `add_optional` fails with `ValidationError` exactly when
some supplied key is not a member of `header.columns`; in particular every
key equal to one of the 7 reserved column names is accepted and its entry is
stored in the record's optional mapping. -/
theorem c5_add_optional_keys (chroms : List String) (shape srt : String)
    (ga : Option String) (ac : List String) (al : List (String × String))
    (hdr : PairsHeader)
    (hinit : PairsHeader.init chroms shape srt ga ac al = .ok hdr)
    (r : PairsLine) (hh : r.header = hdr)
    (opt : List (String × String)) (hopt : r.optional = some opt) :
    (∀ pairs, ((r.add_optional pairs).2 = some PairsError.validationError ↔
      ∃ kv ∈ pairs, kv.1 ∉ hdr.columns)) ∧
    (∀ k v, k ∈ PairsHeaderDefs.base_columns →
      (r.add_optional [(k, v)]).2 = none ∧
      ∃ opt2, (r.add_optional [(k, v)]).1.optional = some opt2 ∧
        alookup opt2 k = some v) := by
  obtain ⟨tail, htail⟩ := init_columns_prefix chroms shape srt ga ac al hdr hinit
  constructor
  · intro pairs
    simp only [PairsLine.add_optional, hopt]
    rw [hh]
    exact addOptionalLoop_err_iff hdr.columns pairs opt
  · intro k v hk
    have hkcols : k ∈ r.header.columns := by
      rw [hh, htail]
      exact List.mem_append.mpr (.inl hk)
    simp only [PairsLine.add_optional, hopt]
    rw [show addOptionalLoop r.header.columns opt [(k, v)] = (dictUpdate opt k v, none) by
      simp [PairsLine.addOptionalLoop, hkcols]]
    exact ⟨rfl, dictUpdate opt k v, rfl, alookup_dictUpdate opt k v⟩

/-- Witness for C5: on the scenario record, an unknown key fails and the
reserved key `chr1` is accepted. -/
theorem c5_add_optional_keys_witness :
    (lineC10.add_optional [("nope", "1")]).2 = some PairsError.validationError ∧
    (lineC10.add_optional [("chr1", "v")]).2 = none :=
  ⟨((c5_add_optional_keys ["chr1", "chr2"] "U" "chr1-chr2-pos1-pos2" (some "hg19")
      ["mismatch"] [] hdrC3 rfl lineC10 rfl [("mismatch", "m0")] rfl).1
        [("nope", "1")]).mpr
      ⟨("nope", "1"), List.mem_singleton.mpr rfl, by decide⟩,
   ((c5_add_optional_keys ["chr1", "chr2"] "U" "chr1-chr2-pos1-pos2" (some "hg19")
      ["mismatch"] [] hdrC3 rfl lineC10 rfl [("mismatch", "m0")] rfl).2
        "chr1" "v" (by decide)).1⟩

/-- C6 counterexample: an input satisfying all four validation constraints
(chromosomes in the header's set, positions positive integers) on which
`add` still raises `ValidationError`, because the supplied optional mapping
has a key outside `header.columns`. -/
theorem c6_counterexample :
    "chr1" ∈ hdr1.chromosomes ∧ (PosArg.int 1).isPosInt = true ∧
    ((PairsLine.mkNew hdr1).add "chr1" (.int 1) "chr1" (.int 1) "." "." "."
      [("bogus", "x")]).2 = some PairsError.validationError :=
  ⟨by decide, rfl, rfl⟩

/-- C6 (amended): `add` fails with `ValidationError` whenever `chr1` or
`chr2` is not in the header's chromosome set or `pos1`/`pos2` is zero,
negative or not an integer; and for every input satisfying all four
constraints whose optional mapping's keys all belong to `header.columns`,
`add` does not raise. -/
theorem c6_add_validation (r : PairsLine) (c1 : String) (p1 : PosArg) (c2 : String)
    (p2 : PosArg) (s1 s2 rid : String) (optional : List (String × String)) :
    ((c1 ∉ r.header.chromosomes ∨ c2 ∉ r.header.chromosomes ∨
      p1.isPosInt = false ∨ p2.isPosInt = false) →
      (r.add c1 p1 c2 p2 s1 s2 rid optional).2 = some PairsError.validationError) ∧
    (c1 ∈ r.header.chromosomes → c2 ∈ r.header.chromosomes →
      p1.isPosInt = true → p2.isPosInt = true →
      (∀ kv ∈ optional, kv.1 ∈ r.header.columns) →
      (r.add c1 p1 c2 p2 s1 s2 rid optional).2 = none) := by
  constructor
  · intro h
    rw [add_invalid r c1 p1 c2 p2 s1 s2 rid optional h]
  · intro h1 h2 hp1 hp2 hopt
    rcases p1 with p1 | _
    · rcases p2 with p2 | _
      · have hp1i : 0 < p1 := by simpa [PosArg.isPosInt] using hp1
        have hp2i : 0 < p2 := by simpa [PosArg.isPosInt] using hp2
        rw [add_valid r c1 p1 c2 p2 s1 s2 rid optional h1 h2 hp1i hp2i hopt]
      · simp [PosArg.isPosInt] at hp2
    · simp [PosArg.isPosInt] at hp1

/-- Witness for C6: an unknown chromosome fails; a fully valid call (empty
optional mapping) succeeds. -/
theorem c6_add_validation_witness :
    ((PairsLine.mkNew hdr1).add "chrX" (.int 1) "chr1" (.int 1)).2 =
      some PairsError.validationError ∧
    ((PairsLine.mkNew hdr1).add "chr1" (.int 1) "chr1" (.int 1)).2 = none :=
  ⟨(c6_add_validation (PairsLine.mkNew hdr1) "chrX" (.int 1) "chr1" (.int 1)
      "." "." "." []).1 (Or.inl (by decide)),
   (c6_add_validation (PairsLine.mkNew hdr1) "chr1" (.int 1) "chr1" (.int 1)
      "." "." "." []).2 (by decide) (by decide) rfl rfl (by simp)⟩

/-- C7 counterexample: `additionalColumns = ['extra', 'extra']` contains no
reserved column name, the additional lines are empty and the shape is valid,
yet construction fails — the duplicate-check runs against the growing column
list, a failure mode the claim's "succeeds when none of these violations
occur" excludes. -/
theorem c7_counterexample :
    (∀ c ∈ ["extra", "extra"], c ∉ PairsHeaderDefs.base_columns) ∧
    PairsHeader.init ["chr1"] "U" "chr1-chr2-pos1-pos2" none ["extra", "extra"] [] =
      .error PairsError.configurationError :=
  ⟨by decide, rfl⟩

/-- C7 (amended): header construction succeeds exactly when the shape is
`'U'` or `'L'`, no additional column name equals one of the 7 reserved
column names, the additional column names are pairwise distinct, and no
additional-line key is one of the 5 reserved header keys; every construction
failure is a `ConfigurationError`. -/
theorem c7_init_characterization (chroms : List String) (shape srt : String)
    (ga : Option String) (ac : List String) (al : List (String × String)) :
    ((∃ h, PairsHeader.init chroms shape srt ga ac al = .ok h) ↔
      (shape = "U" ∨ shape = "L") ∧ (∀ c ∈ ac, c ∉ PairsHeaderDefs.base_columns) ∧
        ac.Nodup ∧ (∀ kv ∈ al, kv.1 ∉ PairsHeaderDefs.reserved_header_keys)) ∧
    (∀ e, PairsHeader.init chroms shape srt ga ac al = .error e →
      e = PairsError.configurationError) :=
  ⟨init_ok_iff chroms shape srt ga ac al,
   fun e he => init_error_config chroms shape srt ga ac al e he⟩

/-- Witness for C7: a valid construction succeeds; an invalid shape gives
`configurationError`. -/
theorem c7_init_characterization_witness :
    (∃ h, PairsHeader.init ["chr1"] "U" "chr1-chr2-pos1-pos2" none ["extra"] [] = .ok h) ∧
    PairsError.configurationError = PairsError.configurationError :=
  ⟨(c7_init_characterization ["chr1"] "U" "chr1-chr2-pos1-pos2" none ["extra"] []).1.mpr
      (by decide),
   (c7_init_characterization ["chr1"] "Q" "chr1-chr2-pos1-pos2" none [] []).2
      PairsError.configurationError rfl⟩

/-- C8: construction sorts the chromosome sequence into ascending
alpha-numeric (plain lexicographic) order: `['chr2','chr1']` is stored as
`['chr1','chr2']`, a scrambled permutation of the documented example set is
stored exactly as `['1','11','2','3','6','X','X12','XXX','Y','_']`, and that
order is a fixed point of the sort. -/
theorem c8_chromosome_sort :
    (∃ h, PairsHeader.init ["chr2", "chr1"] = .ok h ∧
      h.chromosomes = ["chr1", "chr2"]) ∧
    (∃ h, PairsHeader.init ["X", "2", "_", "1", "XXX", "3", "Y", "11", "X12", "6"] = .ok h ∧
      h.chromosomes = ["1", "11", "2", "3", "6", "X", "X12", "XXX", "Y", "_"]) ∧
    pySort ["1", "11", "2", "3", "6", "X", "X12", "XXX", "Y", "_"] =
      ["1", "11", "2", "3", "6", "X", "X12", "XXX", "Y", "_"] :=
  ⟨⟨_, rfl, rfl⟩, ⟨_, rfl, rfl⟩, rfl⟩

set_option maxRecDepth 8192 in
/-- C9: on the scenario header, `print_header` emits exactly the five lines
`shape`, `sorted`, `chromosomes`, `genome_assembly`, `columns` in that fixed
order, each formatted as `#key : value` and newline-terminated; the
`genome_assembly` line is omitted when the assembly is absent, an empty
additional-lines block appends nothing, and a non-empty one is appended
after the `columns` line. -/
theorem c9_print_header :
    hdrC3.print_header =
      "#shape : upper triangle\n#sorted : chr1-chr2-pos1-pos2\n#chromosomes : chr1 chr2\n#genome_assembly : hg19\n#columns : readID chr1 position1 chr2 position2 strand1 strand2 mismatch\n" ∧
    hdrC3.print_header = String.join
      (([("shape", "upper triangle"), ("sorted", "chr1-chr2-pos1-pos2"),
        ("chromosomes", "chr1 chr2"), ("genome_assembly", "hg19"),
        ("columns", "readID chr1 position1 chr2 position2 strand1 strand2 mismatch")] :
          List (String × String)).map
        (fun kv => "#" ++ kv.1 ++ " : " ++ kv.2 ++ "\n")) ∧
    ({ hdrC3 with genome_assembly := none } : PairsHeader).print_header =
      "#shape : upper triangle\n#sorted : chr1-chr2-pos1-pos2\n#chromosomes : chr1 chr2\n#columns : readID chr1 position1 chr2 position2 strand1 strand2 mismatch\n" ∧
    ({ hdrC3 with additional_lines := [("creator", "haha")] } : PairsHeader).print_header =
      hdrC3.print_header ++ "#creator : haha\n" :=
  ⟨rfl, rfl, rfl, by decide⟩

/-- C10 counterexample: on a populated record, an `add` call that passes all
four field validations but fails on an unknown optional key raises
`ValidationError` with `readID` and `optional` already overwritten — so a
failing `add` does not always leave the record as it was. -/
theorem c10_counterexample :
    lineC10.readID = some "r0" ∧
    lineC10.optional = some [("mismatch", "m0")] ∧
    (lineC10.add "chr1" (.int 1) "chr2" (.int 2) "." "." "." [("bogus", "x")]).2 =
      some PairsError.validationError ∧
    (lineC10.add "chr1" (.int 1) "chr2" (.int 2) "." "." "." [("bogus", "x")]).1.readID =
      some "." ∧
    (lineC10.add "chr1" (.int 1) "chr2" (.int 2) "." "." "." [("bogus", "x")]).1.optional =
      some [] :=
  ⟨rfl, rfl, rfl, rfl, rfl⟩

/-- C10 (amended): the four field validations run before any record field is
written, so an `add` that fails one of them returns the record exactly as it
was (every field unchanged); only a later failure in optional-key validation
can leave `readID`/`optional` overwritten. -/
theorem c10_add_atomic_on_field_validation (r : PairsLine) (c1 : String)
    (p1 : PosArg) (c2 : String) (p2 : PosArg) (s1 s2 rid : String)
    (optional : List (String × String))
    (h : c1 ∉ r.header.chromosomes ∨ c2 ∉ r.header.chromosomes ∨
      p1.isPosInt = false ∨ p2.isPosInt = false) :
    r.add c1 p1 c2 p2 s1 s2 rid optional = (r, some PairsError.validationError) :=
  add_invalid r c1 p1 c2 p2 s1 s2 rid optional h

/-- Witness for C10: a failing `add` (unknown chromosome) on a populated
record returns that record unchanged. -/
theorem c10_add_atomic_witness :
    lineC10.add "chrX" (.int 1) "chr2" (.int 2) "." "." "." [] =
      (lineC10, some PairsError.validationError) :=
  c10_add_atomic_on_field_validation lineC10 "chrX" (.int 1) "chr2" (.int 2)
    "." "." "." [] (Or.inl (by decide))
